import Mathlib

/-!
Verification of the Zero2JSON procedural text generator
(`src/nodes/base.py`, `src/nodes/utility_nodes.py`).

The code is shallowly embedded: machine integers are `Nat` with explicit
reduction modulo `2 ^ 32`; byte strings are `List Nat` (each entry < 256);
Python exceptions are `Option`/`Except` failures.
-/

namespace Zero2JSON

/-! ## 32-bit arithmetic helpers -/

/-- Reduce a natural number modulo `2 ^ 32`, the wrap-around of `uint32`. -/
def u32 (n : Nat) : Nat := n % 4294967296

/-- Rotate a 32-bit value (`x < 2 ^ 32`) left by `r` bits. -/
def rotl32 (x r : Nat) : Nat := u32 ((x <<< r) ||| (x >>> (32 - r)))

/-- Little-endian 32-bit word from four bytes. -/
def le32 (b0 b1 b2 b3 : Nat) : Nat := b0 + 256 * b1 + 65536 * b2 + 16777216 * b3

/-! ## xxHash32 (the `xxhash.xxh32` digest used by the code) -/

def XXP1 : Nat := 2654435761
def XXP2 : Nat := 2246822519
def XXP3 : Nat := 3266489917
def XXP4 : Nat := 668265263
def XXP5 : Nat := 374761393

/-- One accumulator round of XXH32. -/
def xxRound (acc input : Nat) : Nat :=
  u32 (rotl32 (u32 (acc + u32 (input * XXP2))) 13 * XXP1)

/-- Consume 16-byte stripes while at least 16 bytes remain, updating the
four lane accumulators; returns the accumulators and the remaining bytes. -/
def xxStripes : Nat → Nat → Nat → Nat → List Nat →
    Nat × Nat × Nat × Nat × List Nat
  | a1, a2, a3, a4,
    b0 :: b1 :: b2 :: b3 :: b4 :: b5 :: b6 :: b7 ::
    b8 :: b9 :: bA :: bB :: bC :: bD :: bE :: bF :: rest =>
      xxStripes (xxRound a1 (le32 b0 b1 b2 b3)) (xxRound a2 (le32 b4 b5 b6 b7))
        (xxRound a3 (le32 b8 b9 bA bB)) (xxRound a4 (le32 bC bD bE bF)) rest
  | a1, a2, a3, a4, l => (a1, a2, a3, a4, l)

/-- Consume the tail: 4-byte words while possible, then single bytes. -/
def xxTail (acc : Nat) : List Nat → Nat
  | b0 :: b1 :: b2 :: b3 :: rest =>
      xxTail (u32 (rotl32 (u32 (acc + u32 (le32 b0 b1 b2 b3 * XXP3))) 17 * XXP4)) rest
  | b :: rest =>
      xxTail (u32 (rotl32 (u32 (acc + u32 (b * XXP5))) 11 * XXP1)) rest
  | [] => acc

/-- The XXH32 final avalanche. -/
def xxAvalanche (acc : Nat) : Nat :=
  let a1 := u32 ((acc ^^^ (acc >>> 15)) * XXP2)
  let a2 := u32 ((a1 ^^^ (a1 >>> 13)) * XXP3)
  a2 ^^^ (a2 >>> 16)

/-- XXH32 digest of a byte list with a 32-bit seed (`xxhash.xxh32(...).intdigest()`). -/
def xxh32 (seed : Nat) (bytes : List Nat) : Nat :=
  let len := bytes.length
  let start :=
    if 16 ≤ len then
      let r := xxStripes (u32 (seed + XXP1 + XXP2)) (u32 (seed + XXP2)) (u32 seed)
        (u32 (seed + 4294967296 - XXP1)) bytes
      (u32 (rotl32 r.1 1 + rotl32 r.2.1 7 + rotl32 r.2.2.1 12 + rotl32 r.2.2.2.1 18),
        r.2.2.2.2)
    else (u32 (seed + XXP5), bytes)
  xxAvalanche (xxTail (u32 (start.1 + len)) start.2)

example : xxh32 0 [] = 0x02CC5D05 := by decide
example : xxh32 2654435761 [] = 0x36B78AE7 := by decide

/-! ## struct packing (`struct.pack` / `int.to_bytes`) -/

/-- The four little-endian bytes of a value already reduced below `2 ^ 32`. -/
def toBytes4LE (n : Nat) : List Nat :=
  [n % 256, n / 256 % 256, n / 65536 % 256, n / 16777216 % 256]

/-- Python `struct.pack("<i", x)`: little-endian twos-complement encoding of a
signed 32-bit integer; out-of-range values raise `struct.error` (`none`). -/
def packInt32LE (x : Int) : Option (List Nat) :=
  if -2147483648 ≤ x ∧ x < 2147483648 then
    some (toBytes4LE (((x + 4294967296) % 4294967296).toNat))
  else none

/-- Python `struct.pack` with format `"<" + "i" * len(coords)`: concatenated
signed little-endian encodings, failing if any coordinate is out of range. -/
def packCoords : List Int → Option (List Nat)
  | [] => some []
  | c :: cs => do
      let b ← packInt32LE c
      let bs ← packCoords cs
      pure (b ++ bs)

/-- Python `n.to_bytes(4, "little")`: raises `OverflowError` (`none`) unless
`n < 2 ^ 32`. -/
def toBytes4Checked (n : Nat) : Option (List Nat) :=
  if n < 4294967296 then some (toBytes4LE n) else none

/-! ## Core hash functions (`src/nodes/base.py`, `prompt_hash` / `hash_to_index`) -/

/-- Embedding of `prompt_hash(seed, *coords)`: an `xxh32` instance seeded with
`seed & 0xFFFFFFFF`, updated with the coordinates packed as little-endian
32-bit signed integers, finalized to its digest. `none` models `struct.error`
for a coordinate outside signed 32-bit range. -/
def prompt_hash (seed : Nat) (coords : List Int) : Option Nat :=
  (packCoords coords).map (xxh32 (seed % 4294967296))

/-- Embedding of `hash_to_index(h, pool_size)`: `h % pool_size`. (For
`pool_size = 0` Python raises `ZeroDivisionError`; the Lean convention `h % 0 = h` then
always fails the list lookup at the call sites, modelling the exception.) -/
def hash_to_index (h pool_size : Nat) : Nat := h % pool_size

example : prompt_hash 0 [0, 0] = some 3736311059 := by decide
example : prompt_hash 0 [0, 1] = some 3658090324 := by decide
example : prompt_hash 5 [7, 0] = some 1651194179 := by decide
example : prompt_hash 123456789 [42, 3] = some 4190044813 := by decide

/-! ## Profile model and validation (`load_profile`, `calculate_combinations`) -/

/-- A profile after loading: the `templates` list and the `pools` mapping.
The Python `dict` preserves insertion order, so `pools` is an association list
in the defined iteration order of the profile. -/
structure Profile where
  templates : List String
  pools : List (String × List String)
deriving DecidableEq

/-- A parsed-but-unvalidated profile record: each required key may be absent
(`none` models a missing dictionary key). -/
structure RawProfile where
  templates : Option (List String)
  pools : Option (List (String × List String))

/-- Embedding of the validation part of `load_profile` (the file I/O that
precedes it is out of scope): raise `ValueError` when the `templates` or
`pools` key is missing, otherwise return the profile unchanged. -/
def load_profile (profile_name : String) (raw : RawProfile) : Except String Profile :=
  match raw.templates with
  | none => .error ("Profile " ++ profile_name ++ " missing templates field")
  | some ts =>
    match raw.pools with
    | none => .error ("Profile " ++ profile_name ++ " missing pools field")
    | some ps => .ok ⟨ts, ps⟩

/-- Embedding of `calculate_combinations`: start from `len(templates)` and
multiply by the length of each pool. -/
def calculate_combinations (p : Profile) : Nat :=
  p.pools.foldl (fun total pool => total * pool.2.length) p.templates.length

/-! ## Python `str.format` with keyword arguments

`generate_prompt` calls `template.format(**components)`. We embed the format
scanner as a character-level state machine faithful to CPython on templates
whose replacement fields are simple names: `\x7b\x7b` / `\x7d\x7d` escapes
produce literal braces, `\x7bname\x7d` substitutes the keyword `name` or
raises `KeyError`, an all-digit field is positional and raises `IndexError`
(no positional arguments are passed), and a lone unmatched brace raises
`ValueError`. `FmtErr.fatal` covers the uncaught `ValueError`/`IndexError`
cases; only `KeyError` is caught by the caller. -/

inductive FmtErr where
  | keyErr (key : String)
  | fatal
deriving DecidableEq

/-- Python `dict` lookup on an association list (first match). -/
def lookupStr : List (String × String) → String → Option String
  | [], _ => none
  | (k, v) :: rest, key => if k = key then some v else lookupStr rest key

/-- ASCII decimal digit test on the code point of the character. -/
def isDigitChar (c : Char) : Bool := 48 ≤ c.toNat && c.toNat ≤ 57

/-- ASCII letter or underscore: a character that may start an identifier. -/
def isIdentStart (c : Char) : Bool :=
  (65 ≤ c.toNat && c.toNat ≤ 90) || (97 ≤ c.toNat && c.toNat ≤ 122) || c = '_'

/-- Character allowed after the first one of an identifier. -/
def isIdentChar (c : Char) : Bool := isIdentStart c || isDigitChar c

/-- A nonempty all-digit field name is a positional argument reference. -/
def isPositionalName (name : List Char) : Bool :=
  !name.isEmpty && name.all isDigitChar

/-- Scanner state of the format machine. -/
inductive FmtState where
  | lit
  | afterOpen
  | field (name : List Char)
  | afterClose

/-- The format scanner: processes the template character by character. -/
def fmtRun (m : List (String × String)) : FmtState → String → List Char → Except FmtErr String
  | .lit, acc, [] => .ok acc
  | .lit, acc, c :: cs =>
      if c = '{' then fmtRun m .afterOpen acc cs
      else if c = '}' then fmtRun m .afterClose acc cs
      else fmtRun m .lit (acc.push c) cs
  | .afterOpen, _, [] => .error .fatal
  | .afterOpen, acc, c :: cs =>
      if c = '{' then fmtRun m .lit (acc.push '{') cs
      else if c = '}' then .error .fatal
      else fmtRun m (.field [c]) acc cs
  | .field _, _, [] => .error .fatal
  | .field name, acc, c :: cs =>
      if c = '}' then
        if isPositionalName name then .error .fatal
        else
          match lookupStr m (String.mk name) with
          | some v => fmtRun m .lit (acc ++ v) cs
          | none => .error (.keyErr (String.mk name))
      else if c = '{' then .error .fatal
      else fmtRun m (.field (name ++ [c])) acc cs
  | .afterClose, _, [] => .error .fatal
  | .afterClose, acc, c :: cs =>
      if c = '}' then fmtRun m .lit (acc.push '}') cs
      else .error .fatal

/-- Python `template.format(**m)` on a template string. -/
def pyFormat (m : List (String × String)) (t : String) : Except FmtErr String :=
  fmtRun m .lit ("") t.toList

/-! ## Python `str.replace` -/

/-- Fuel-driven left-to-right non-overlapping replacement over characters.
The fuel starts at the string length; each step consumes at least one fuel
unit, so the fuel never runs out for a nonempty pattern. -/
def replaceAux (pat rep : List Char) : Nat → List Char → List Char
  | 0, s => s
  | _ + 1, [] => []
  | n + 1, c :: cs =>
      if pat.isPrefixOf (c :: cs) then rep ++ replaceAux pat rep n ((c :: cs).drop pat.length)
      else c :: replaceAux pat rep n cs

/-- Python `s.replace(pat, rep)`: replace all non-overlapping occurrences,
scanning left to right. -/
def pyReplace (s pat rep : String) : String :=
  String.mk (replaceAux pat.toList rep.toList s.toList.length s.toList)

example : pyReplace ("A \x7bknown\x7d B") ("\x7bknown\x7d") ("x") = "A x B" := by decide
example : pyReplace ("aaa") ("aa") ("b") = "ba" := by decide

/-! ## Prompt generation (`generate_prompt`) -/

/-- The component-selection loop of `generate_prompt`:
`for i, (key, pool) in enumerate(pools.items()):` with running counter `i`,
hashing coordinate `i + 1` and indexing the pool by the digest modulo its
length. `none` models `struct.error` or `ZeroDivisionError`. -/
def genComponents (seed prompt_idx : Nat) : Nat → List (String × List String) →
    Option (List (String × String))
  | _, [] => some []
  | i, (key, pool) :: rest => do
      let component_hash ← prompt_hash seed [Int.ofNat prompt_idx, Int.ofNat (i + 1)]
      let v ← pool.get? (hash_to_index component_hash pool.length)
      let tail ← genComponents seed prompt_idx (i + 1) rest
      pure ((key, v) :: tail)

/-- The `except KeyError` fallback of `generate_prompt`:
`for key in pools.keys(): template = template.replace("\x7b" + key + "\x7d",
components.get(key, "[" + key + "]"))`. -/
def keyErrorFallback (pools : List (String × List String))
    (components : List (String × String)) (template : String) : String :=
  pools.foldl
    (fun tmpl pool =>
      pyReplace tmpl ("\x7b" ++ pool.1 ++ "\x7d")
        ((lookupStr components pool.1).getD ("[" ++ pool.1 ++ "]")))
    template

/-- Step 3 of `generate_prompt`: `template.format(**components)`, catching
only `KeyError` with the replace-based fallback; other format errors
propagate (`none`). -/
def formatStep (pools : List (String × List String))
    (components : List (String × String)) (template : String) : Option String :=
  match pyFormat components template with
  | .ok s => some s
  | .error (.keyErr _) => some (keyErrorFallback pools components template)
  | .error .fatal => none

/-- Embedding of `generate_prompt(seed, prompt_idx, profile)`: select the
template by the hash of coordinate 0, select one item per pool by the hashes
of coordinates 1.., then format. `none` models any uncaught exception. -/
def generate_prompt (seed prompt_idx : Nat) (profile : Profile) : Option String := do
  let template_hash ← prompt_hash seed [Int.ofNat prompt_idx, 0]
  let template ← profile.templates.get? (hash_to_index template_hash profile.templates.length)
  let components ← genComponents seed prompt_idx 0 profile.pools
  formatStep profile.pools components template

/-! ## Base node `generate` (`Zero2JSONBaseNode.generate`) -/

/-- Embedding of the successful-load path of `Zero2JSONBaseNode.generate`:
render, then prepend/append the decorations when either is nonempty
(Python truthiness of `if prefix or suffix:`). The profile-cache and
load-error paths concern the elided file I/O. -/
def base_generate (seed prompt_index : Nat) (profile_data : Profile)
    (pre suf : String) : Option String := do
  let prompt ← generate_prompt seed prompt_index profile_data
  pure (if pre ≠ "" ∨ suf ≠ "" then pre ++ prompt ++ suf else prompt)

/-! ## Batch generation (`Z2J_BatchGenerator.generate_batch`) -/

/-- The accumulation loop of `generate_batch`:
`for i in range(count): prompts.append(generate_prompt(seed, start_index + i, ...))`. -/
def batch_prompts (seed start_index count : Nat) (profile : Profile) :
    List (Option String) :=
  (List.range count).foldl
    (fun prompts i => prompts ++ [generate_prompt seed (start_index + i) profile]) []

/-- Collapse a list of fallible renders: the first exception aborts the loop. -/
def seqOpt {α : Type} : List (Option α) → Option (List α)
  | [] => some []
  | o :: os => do
      let a ← o
      let as ← seqOpt os
      pure (a :: as)

/-- Embedding of `generate_batch` after a successful profile load: the joined
batch text and the numbered list text built from the generated sequence. -/
def generate_batch (seed start_index count : Nat) (profile : Profile)
    (separator : String) : Option (String × String) := do
  let prompts ← seqOpt (batch_prompts seed start_index count profile)
  let numbered := (List.enumFrom 0 prompts).map
    (fun ip => "[" ++ toString ip.1 ++ "] " ++ ip.2)
  pure (String.intercalate separator prompts, String.intercalate ("\n") numbered)

/-! ## Seed mixer (`Z2J_SeedMixer`) -/

/-- Embedding of `mix_seeds`: an unseeded `xxh32` instance fed each seed as
four little-endian bytes in argument order; `none` models the
`OverflowError` of `int.to_bytes` on values at or above `2 ^ 32`. -/
def mix_seeds (seed_1 seed_2 seed_3 seed_4 : Nat) : Option Nat := do
  let b1 ← toBytes4Checked seed_1
  let b2 ← toBytes4Checked seed_2
  let b3 ← toBytes4Checked seed_3
  let b4 ← toBytes4Checked seed_4
  pure (xxh32 0 (b1 ++ b2 ++ b3 ++ b4))

/-- Embedding of `Z2J_SeedMixer.IS_CHANGED`: hashes only `seed_1` and
`seed_2`; the last two parameters are accepted and ignored. -/
def seedMixerIsChanged (seed_1 seed_2 _seed_3 _seed_4 : Nat) : Option Nat := do
  let b1 ← toBytes4Checked seed_1
  let b2 ← toBytes4Checked seed_2
  pure (xxh32 0 (b1 ++ b2))

example : mix_seeds 1 2 0 0 = some 3722735888 := by decide
example : mix_seeds 2 1 0 0 = some 2407738565 := by decide
example : seedMixerIsChanged 3 4 0 0 = some 870825884 := by decide

/-! ## Specification-side definitions

The following definitions transcribe the wording of the specification (not
the code); the claim theorems compare the source embeddings against them. -/

/-- Product of the pool sizes, as the specification words it:
`product(len(pool) for pool in pools.values())`, empty product 1. -/
def poolsProduct (pools : List (String × List String)) : Nat :=
  pools.foldl (fun acc pool => acc * pool.2.length) 1

/-- One selection step as the specification words it: for ordinal `i` and the
named pool, `componentHash = hash(seed, [positionIndex, i])` and the component
is the pool item at `indexOf(componentHash, len(pool))`. -/
def specSelect (seed positionIndex : Nat) (ip : Nat × String × List String) :
    Option (String × String) := do
  let componentHash ← prompt_hash seed [Int.ofNat positionIndex, Int.ofNat ip.1]
  let v ← ip.2.2.get? (componentHash % ip.2.2.length)
  pure (ip.2.1, v)

/-- The component map as the specification words it: each pool, in the
defined iteration order, with ordinal `i` starting at 1. -/
def spec_components (seed positionIndex : Nat)
    (pools : List (String × List String)) : Option (List (String × String)) :=
  seqOpt ((List.enumFrom 1 pools).map (specSelect seed positionIndex))

/-! ## Well-formed templates

A template is well formed when every brace belongs either to an escaped
double brace or to a replacement field whose name is a plain identifier
(ASCII letter or underscore, then letters, digits or underscores). On such
templates `str.format` can only succeed or raise `KeyError`. -/

/-- Scanner state of the well-formedness checker. -/
inductive WfState where
  | lit
  | afterOpen
  | field
  | afterClose

/-- The well-formedness scanner. -/
def wfRun : WfState → List Char → Bool
  | .lit, [] => true
  | .lit, c :: cs =>
      if c = '{' then wfRun .afterOpen cs
      else if c = '}' then wfRun .afterClose cs
      else wfRun .lit cs
  | .afterOpen, [] => false
  | .afterOpen, c :: cs =>
      if c = '{' then wfRun .lit cs
      else if isIdentStart c then wfRun .field cs
      else false
  | .field, [] => false
  | .field, c :: cs =>
      if c = '}' then wfRun .lit cs
      else if isIdentChar c then wfRun .field cs
      else false
  | .afterClose, [] => false
  | .afterClose, c :: cs =>
      if c = '}' then wfRun .lit cs
      else false

/-- A template whose replacement fields are all simple identifier names. -/
def wellFormedTmpl (t : String) : Bool := wfRun .lit t.toList

example : wellFormedTmpl ("A \x7bknown\x7d B \x7bunknown\x7d C") = true := by decide
example : wellFormedTmpl ("\x7b") = false := by decide
example : wellFormedTmpl ("a\x7d") = false := by decide
example : wellFormedTmpl ("\x7b\x7bok\x7d\x7d") = true := by decide

/-! ## Helper lemmas -/

theorem packInt32LE_ofNat (n : Nat) (h : n < 2147483648) :
    packInt32LE (n : Int) = some (toBytes4LE n) := by
  unfold packInt32LE
  rw [if_pos (by constructor <;> omega)]
  have harg : (((n : Int) + 4294967296) % 4294967296).toNat = n := by omega
  rw [harg]

theorem prompt_hash_pair (seed a b : Nat) (ha : a < 2147483648)
    (hb : b < 2147483648) :
    prompt_hash seed [(a : Int), (b : Int)] =
      some (xxh32 (seed % 4294967296) (toBytes4LE a ++ toBytes4LE b)) := by
  simp [prompt_hash, packCoords, packInt32LE_ofNat a ha, packInt32LE_ofNat b hb]

theorem prompt_hash_pairOfNat (seed a b : Nat) (ha : a < 2147483648)
    (hb : b < 2147483648) :
    prompt_hash seed [Int.ofNat a, Int.ofNat b] =
      some (xxh32 (seed % 4294967296) (toBytes4LE a ++ toBytes4LE b)) :=
  prompt_hash_pair seed a b ha hb

theorem prompt_hash_pair0 (seed a : Nat) (ha : a < 2147483648) :
    prompt_hash seed [Int.ofNat a, 0] =
      some (xxh32 (seed % 4294967296) (toBytes4LE a ++ toBytes4LE 0)) :=
  prompt_hash_pair seed a 0 ha (by omega)

theorem optSomeBind {α β : Type} (a : α) (f : α → Option β) :
    (some a >>= f : Option β) = f a := rfl

theorem optNoneBind {α β : Type} (f : α → Option β) :
    ((none : Option α) >>= f : Option β) = none := rfl

/-- A field name that has accumulated at least one character, the first of
which could start an identifier. Such a name is never all digits. -/
def GoodName (name : List Char) : Prop :=
  ∃ c rest, name = c :: rest ∧ isIdentStart c = true

theorem isIdentStart_not_digit {c : Char} (h : isIdentStart c = true) :
    isDigitChar c = false := by
  cases hd : isDigitChar c with
  | false => rfl
  | true =>
    exfalso
    simp only [isDigitChar, Bool.and_eq_true, decide_eq_true_eq] at hd
    simp only [isIdentStart, Bool.or_eq_true, Bool.and_eq_true,
      decide_eq_true_eq] at h
    rcases h with (⟨h1, h2⟩ | ⟨h1, h2⟩) | h3
    · omega
    · omega
    · rw [h3] at hd
      revert hd
      decide

theorem goodName_not_positional {name : List Char} (h : GoodName name) :
    isPositionalName name = false := by
  obtain ⟨c, rest, rfl, hc⟩ := h
  simp [isPositionalName, isIdentStart_not_digit hc]

theorem goodName_append {name : List Char} (c : Char) (h : GoodName name) :
    GoodName (name ++ [c]) := by
  obtain ⟨c0, rest, rfl, hc0⟩ := h
  exact ⟨c0, rest ++ [c], rfl, hc0⟩

/-- On a template accepted by the well-formedness scanner, the format scanner
never raises an uncaught error, whatever the keyword map and whatever output
has accumulated so far. Stated for all four scanner states at once; for a
field in progress the accumulated name must be identifier-like. -/
theorem wfRun_no_fatal (m : List (String × String)) :
    ∀ cs : List Char,
      (∀ acc, wfRun .lit cs = true → fmtRun m .lit acc cs ≠ .error .fatal) ∧
      (∀ acc, wfRun .afterOpen cs = true →
        fmtRun m .afterOpen acc cs ≠ .error .fatal) ∧
      (∀ acc name, GoodName name → wfRun .field cs = true →
        fmtRun m (.field name) acc cs ≠ .error .fatal) ∧
      (∀ acc, wfRun .afterClose cs = true →
        fmtRun m .afterClose acc cs ≠ .error .fatal) := by
  intro cs
  induction cs with
  | nil =>
    refine ⟨fun acc _ => ?_, fun acc h => ?_, fun acc name _ h => ?_,
      fun acc h => ?_⟩ <;> simp_all [wfRun, fmtRun]
  | cons c cs ih =>
    obtain ⟨ihLit, ihOpen, ihField, ihClose⟩ := ih
    refine ⟨fun acc h => ?_, fun acc h => ?_, fun acc name hg h => ?_,
      fun acc h => ?_⟩
    · by_cases hc : c = '{'
      · simp only [wfRun, if_pos hc] at h
        simp only [fmtRun, if_pos hc]
        exact ihOpen acc h
      · by_cases hc2 : c = '}'
        · simp only [wfRun, if_neg hc, if_pos hc2] at h
          simp only [fmtRun, if_neg hc, if_pos hc2]
          exact ihClose acc h
        · simp only [wfRun, if_neg hc, if_neg hc2] at h
          simp only [fmtRun, if_neg hc, if_neg hc2]
          exact ihLit _ h
    · by_cases hc : c = '{'
      · simp only [wfRun, if_pos hc] at h
        simp only [fmtRun, if_pos hc]
        exact ihLit _ h
      · simp only [wfRun, if_neg hc] at h
        by_cases hid : isIdentStart c
        · simp only [if_pos hid] at h
          have hc2 : c ≠ '}' := by
            intro heq
            rw [heq] at hid
            exact absurd hid (by decide)
          simp only [fmtRun, if_neg hc, if_neg hc2]
          exact ihField _ [c] ⟨c, [], rfl, hid⟩ h
        · simp only [if_neg hid] at h
          exact absurd h (by simp)
    · by_cases hc : c = '}'
      · simp only [wfRun, if_pos hc] at h
        simp only [fmtRun, if_pos hc]
        rw [goodName_not_positional hg, if_neg (by simp)]
        cases hlk : lookupStr m (String.mk name) with
        | some v => exact ihLit _ h
        | none => simp
      · simp only [wfRun, if_neg hc] at h
        by_cases hic : isIdentChar c
        · simp only [if_pos hic] at h
          have hc1 : c ≠ '{' := by
            intro heq
            rw [heq] at hic
            exact absurd hic (by decide)
          simp only [fmtRun, if_neg hc, if_neg hc1]
          exact ihField _ _ (goodName_append c hg) h
        · simp only [if_neg hic] at h
          exact absurd h (by simp)
    · by_cases hc : c = '}'
      · simp only [wfRun, if_pos hc] at h
        simp only [fmtRun, if_pos hc]
        exact ihLit _ h
      · simp only [wfRun, if_neg hc] at h
        exact absurd h (by simp)

theorem pyFormat_no_fatal (m : List (String × String)) (t : String)
    (h : wellFormedTmpl t = true) : pyFormat m t ≠ .error .fatal :=
  (wfRun_no_fatal m t.toList).1 ("") h

theorem genComponents_eq_enumFrom (seed idx : Nat) :
    ∀ (pools : List (String × List String)) (i : Nat),
      genComponents seed idx i pools =
        seqOpt ((List.enumFrom (i + 1) pools).map (specSelect seed idx)) := by
  intro pools
  induction pools with
  | nil => intro i; rfl
  | cons kp rest ih =>
    intro i
    obtain ⟨key, pool⟩ := kp
    simp only [genComponents, List.enumFrom, List.map, seqOpt, specSelect,
      hash_to_index]
    cases hh : prompt_hash seed [Int.ofNat idx, Int.ofNat (i + 1)] with
    | none => simp
    | some hv =>
      simp only [optSomeBind]
      cases hg : pool.get? (hv % pool.length) with
      | none => simp
      | some v => simp [ih (i + 1)]

theorem genComponents_isSome (seed idx : Nat) (hidx : idx < 2147483648) :
    ∀ (pools : List (String × List String)) (i : Nat),
      (∀ kp ∈ pools, kp.2 ≠ []) → i + pools.length < 2147483648 →
      (genComponents seed idx i pools).isSome = true := by
  intro pools
  induction pools with
  | nil => intro i _ _; rfl
  | cons kp rest ih =>
    intro i hne hlen
    obtain ⟨key, pool⟩ := kp
    have hpool : pool ≠ [] := hne (key, pool) (by simp)
    have hlt : hash_to_index (xxh32 (seed % 4294967296)
        (toBytes4LE idx ++ toBytes4LE (i + 1))) pool.length < pool.length := by
      apply Nat.mod_lt
      cases pool with
      | nil => exact absurd rfl hpool
      | cons a l => simp
    simp only [genComponents]
    rw [prompt_hash_pairOfNat seed idx (i + 1) hidx (by simp at hlen; omega)]
    simp only [optSomeBind, hash_to_index] at hlt ⊢
    rw [List.get?_eq_get hlt]
    simp only [optSomeBind]
    have htail := ih (i + 1) (fun kp hm => hne kp (List.mem_cons_of_mem _ hm))
      (by simp at hlen ⊢; omega)
    cases hrec : genComponents seed idx (i + 1) rest with
    | none => rw [hrec] at htail; exact absurd htail (by simp)
    | some cs => simp

theorem foldl_append_map {α β : Type} (f : α → β) :
    ∀ (l : List α) (acc : List β),
      l.foldl (fun a x => a ++ [f x]) acc = acc ++ l.map f := by
  intro l
  induction l with
  | nil => intro acc; simp
  | cons x xs ih => intro acc; simp [List.foldl, ih]

theorem foldl_mul_shift {α : Type} (g : α → Nat) :
    ∀ (l : List α) (n : Nat),
      l.foldl (fun acc x => acc * g x) n = n * l.foldl (fun acc x => acc * g x) 1 := by
  intro l
  induction l with
  | nil => intro n; simp
  | cons x xs ih =>
    intro n
    simp only [List.foldl]
    rw [ih (n * g x), ih (1 * g x), Nat.one_mul, Nat.mul_assoc]

theorem string_append_empty_both (s : String) : "" ++ s ++ "" = s := by
  cases s with
  | mk data => show String.mk ([] ++ data ++ []) = String.mk data
               simp

/-- Distinguishes accepted from rejected validation results. -/
def exceptAccepted {ε α : Type} : Except ε α → Bool
  | .ok _ => true
  | .error _ => false

/-! ## Claim theorems -/

/-- Claim C1, counterexample: on the template `"A \x7bknown\x7d B \x7bunknown\x7d C"`
with pools `\x7bknown: ["x"]\x7d`, render at seed 0 and index 0 returns
`"A x B \x7bunknown\x7d C"` — the unknown slot keeps its literal braces — and not
the bracketed `"A x B [unknown] C"` the claim requires, because the fallback
loop iterates only over the pool keys and never rewrites the unknown slot. -/
theorem render_unknown_slot_cex :
    generate_prompt 0 0 ⟨["A \x7bknown\x7d B \x7bunknown\x7d C"], [("known", ["x"])]⟩ =
        some ("A x B \x7bunknown\x7d C") ∧
    generate_prompt 0 0 ⟨["A \x7bknown\x7d B \x7bunknown\x7d C"], [("known", ["x"])]⟩ ≠
        some ("A x B [unknown] C") := by
  constructor
  · decide
  · decide

/-- Claim C1, amended: for every seed and every position index in signed
32-bit range, rendering the template `"A \x7bknown\x7d B \x7bunknown\x7d C"` with pools
`\x7bknown: ["x"]\x7d` does not raise and returns exactly
`"A x B \x7bunknown\x7d C"`: the known slot is substituted, the literal text is
kept, and the unknown slot is left as the literal `\x7bunknown\x7d` (not replaced
by a bracketed placeholder). -/
theorem render_unknown_slot_keeps_braces (seed idx : Nat)
    (hidx : idx < 2147483648) :
    generate_prompt seed idx
        ⟨["A \x7bknown\x7d B \x7bunknown\x7d C"], [("known", ["x"])]⟩ =
      some ("A x B \x7bunknown\x7d C") := by
  simp only [generate_prompt, genComponents, Nat.zero_add]
  rw [prompt_hash_pair0 seed idx hidx,
    prompt_hash_pairOfNat seed idx 1 hidx (by omega)]
  simp [optSomeBind, hash_to_index, Nat.mod_one, List.get?]
  decide

/-- Witness for the amended claim C1 at seed 7, index 3. -/
theorem render_unknown_slot_keeps_braces_witness :
    3 < 2147483648 ∧
    generate_prompt 7 3 ⟨["A \x7bknown\x7d B \x7bunknown\x7d C"], [("known", ["x"])]⟩ =
      some ("A x B \x7bunknown\x7d C") :=
  ⟨by decide, render_unknown_slot_keeps_braces 7 3 (by decide)⟩

/-- Claim C2, counterexample: a raw profile whose `templates` sequence is
empty and whose `pools` mapping contains an empty pool list — exactly the
conditions under which the claim demands rejection — passes `load_profile`
validation: it is returned unchanged as a valid profile, not rejected. -/
theorem load_profile_accepts_empty_cex :
    (⟨[], [("a", [])]⟩ : Profile).templates = [] ∧
    ("a", ([] : List String)) ∈ (⟨[], [("a", [])]⟩ : Profile).pools ∧
    load_profile ("p.json") ⟨some [], some [("a", [])]⟩ =
      Except.ok ⟨[], [("a", [])]⟩ ∧
    exceptAccepted (load_profile ("p.json") ⟨some [], some [("a", [])]⟩) = true :=
  ⟨rfl, by decide, rfl, rfl⟩

/-- Claim C2, amended: `load_profile` validation accepts a raw profile
exactly when both the `templates` key and the `pools` key are present; the
emptiness of the template list or of any pool is not checked (an empty
sequence is accepted and only fails later, at render time). -/
theorem load_profile_presence_only (name : String) (raw : RawProfile) :
    exceptAccepted (load_profile name raw) =
      (raw.templates.isSome && raw.pools.isSome) := by
  obtain ⟨t, p⟩ := raw
  cases t <;> cases p <;> rfl

/-- Claim C3, counterexample: the profile with templates `["\x7b"]` and no
pools lies in the claimed valid domain (non-empty templates, all pools
non-empty), yet render raises (Python `ValueError` on the unmatched brace,
modelled by `none`) — render is not total on that domain. -/
theorem generate_prompt_not_total_cex :
    (⟨["\x7b"], []⟩ : Profile).templates ≠ [] ∧
    (∀ kp ∈ (⟨["\x7b"], []⟩ : Profile).pools, kp.2 ≠ []) ∧
    generate_prompt 0 0 ⟨["\x7b"], []⟩ = none := by
  refine ⟨by decide, by decide, by decide⟩

/-- Claim C3, amended: render is total on the validated domain provided the
templates are well-formed format strings with simple named fields, the
position index is within signed 32-bit range, and the pool count is below
`2 ^ 31` (beyond either bound the coordinate packing itself raises): under
these conditions render always returns a string. -/
theorem generate_prompt_total_on_wellformed (seed idx : Nat) (p : Profile)
    (ht : p.templates ≠ [])
    (hp : ∀ kp ∈ p.pools, kp.2 ≠ [])
    (hw : ∀ t ∈ p.templates, wellFormedTmpl t = true)
    (hidx : idx < 2147483648)
    (hpools : p.pools.length < 2147483648) :
    (generate_prompt seed idx p).isSome = true := by
  simp only [generate_prompt]
  rw [prompt_hash_pair0 seed idx hidx]
  simp only [optSomeBind, hash_to_index]
  have hlen : 0 < p.templates.length := List.length_pos.mpr ht
  have hmod : xxh32 (seed % 4294967296) (toBytes4LE idx ++ toBytes4LE 0) %
      p.templates.length < p.templates.length := Nat.mod_lt _ hlen
  rw [List.get?_eq_get hmod]
  simp only [optSomeBind]
  have hcomps := genComponents_isSome seed idx hidx p.pools 0 hp (by omega)
  cases hrec : genComponents seed idx 0 p.pools with
  | none => rw [hrec] at hcomps; exact absurd hcomps (by simp)
  | some comps =>
    simp only [optSomeBind]
    have htmem : p.templates.get ⟨_, hmod⟩ ∈ p.templates := List.get_mem _ _ _
    have hnf := pyFormat_no_fatal comps _ (hw _ htmem)
    unfold formatStep
    cases hfm : pyFormat comps (p.templates.get ⟨_, hmod⟩) with
    | ok s => simp
    | error e =>
      cases e with
      | keyErr k => simp
      | fatal => exact absurd hfm hnf

/-- Witness for the amended claim C3 at seed 2, index 5 on a two-item pool. -/
theorem generate_prompt_total_on_wellformed_witness :
    ((⟨["A \x7bknown\x7d C"], [("known", ["x", "y"])]⟩ : Profile).templates ≠ [] ∧
      5 < 2147483648) ∧
    (generate_prompt 2 5 ⟨["A \x7bknown\x7d C"], [("known", ["x", "y"])]⟩).isSome =
      true :=
  ⟨⟨by decide, by decide⟩,
    generate_prompt_total_on_wellformed 2 5 ⟨["A \x7bknown\x7d C"], [("known", ["x", "y"])]⟩
      (by decide) (by decide) (by decide) (by decide) (by decide)⟩

/-- Claim C4, counterexample: for templates `["t1", "t2"]` and empty pools,
`calculate_combinations` returns 2 (the template count), not the 1 the claim
asserts for an empty pools mapping. -/
theorem calculate_combinations_empty_pools_cex :
    calculate_combinations ⟨["t1", "t2"], []⟩ = 2 ∧ (2 : Nat) ≠ 1 := by decide

/-- Claim C4, amended: `calculate_combinations` always equals
`len(templates)` times the product of the pool lengths; with an empty pools
mapping the product term is 1, so the result is `len(templates)` (not the
constant 1); and the stated example with two templates and one three-item
pool equals 6. -/
theorem calculate_combinations_formula (p : Profile) :
    calculate_combinations p = p.templates.length * poolsProduct p.pools ∧
    calculate_combinations ⟨p.templates, []⟩ = p.templates.length ∧
    calculate_combinations ⟨["t1", "t2"], [("a", ["x", "y", "z"])]⟩ = 6 := by
  refine ⟨?_, by simp [calculate_combinations, List.foldl], by decide⟩
  exact foldl_mul_shift (fun pool => pool.2.length) p.pools p.templates.length

/-- Claim C5: render selects the template at index
`hash(seed, [idx, 0]) mod len(templates)` and, for each pool in the defined
iteration order with ordinal `i` starting at 1, the item at index
`hash(seed, [idx, i]) mod len(pool)`, where `hash` is the 32-bit `xxh32`
seeded with `seed & 0xFFFFFFFF` fed the coordinates as little-endian 32-bit
signed integers (that is what `prompt_hash` is); the rendered output is the
formatting of exactly these selections. -/
theorem generate_prompt_selection_formula (seed idx : Nat) (p : Profile) :
    generate_prompt seed idx p = (do
      let templateHash ← prompt_hash seed [Int.ofNat idx, 0]
      let template ← p.templates.get? (templateHash % p.templates.length)
      let comps ← spec_components seed idx p.pools
      formatStep p.pools comps template) := by
  simp only [generate_prompt, hash_to_index, spec_components]
  rw [genComponents_eq_enumFrom seed idx]

/-- Claim C6: render is a deterministic function of its arguments only — two
calls with identical seed, index and profile give identical strings. In this
pure embedding the renderer is a function, so the two results are equal by
reflexivity; the embedding has no other state for the output to depend on. -/
theorem generate_prompt_deterministic (seed idx : Nat) (p : Profile) :
    generate_prompt seed idx p = generate_prompt seed idx p := rfl

/-- Claim C7: for any count in 1..100, the batch loop produces exactly the
sequence of independent single renders at indices
`start_index, start_index + 1, ..., start_index + count - 1`, in order. -/
theorem batch_prompts_eq_single_renders (seed start_index count : Nat)
    (p : Profile) (h1 : 1 ≤ count) (h2 : count ≤ 100) :
    batch_prompts seed start_index count p =
      (List.range count).map (fun i => generate_prompt seed (start_index + i) p) := by
  simp only [batch_prompts]
  rw [foldl_append_map]
  simp

/-- Witness for claim C7: a batch of three at start index 10 equals the
three single renders. -/
theorem batch_prompts_eq_single_renders_witness :
    (1 ≤ 3 ∧ 3 ≤ 100) ∧
    batch_prompts 0 10 3 ⟨["w"], []⟩ =
      (List.range 3).map (fun i => generate_prompt 0 (10 + i) ⟨["w"], []⟩) :=
  ⟨⟨by decide, by decide⟩,
    batch_prompts_eq_single_renders 0 10 3 ⟨["w"], []⟩ (by decide) (by decide)⟩

/-- Claim C8: `mix_seeds` is order-sensitive — mixing (1, 2, 0, 0) and
(2, 1, 0, 0) give different digests — and deterministic. -/
theorem mix_seeds_order_sensitive :
    mix_seeds 1 2 0 0 ≠ mix_seeds 2 1 0 0 ∧
    (∀ a b c d : Nat, mix_seeds a b c d = mix_seeds a b c d) :=
  ⟨by decide, fun _ _ _ _ => rfl⟩

/-- Claim C9: whenever the profile renders successfully, the node generate
operation returns exactly the prefix text, then the rendered core, then the
suffix text — the core is unchanged by the decoration (also when both
decorations are empty, where the code skips the concatenation). -/
theorem base_generate_decorates (seed idx : Nat) (p : Profile)
    (pre suf s : String) (h : generate_prompt seed idx p = some s) :
    base_generate seed idx p pre suf = some (pre ++ s ++ suf) := by
  simp only [base_generate, h, optSomeBind]
  by_cases hps : pre ≠ "" ∨ suf ≠ ""
  · rw [if_pos hps]
    rfl
  · rw [if_neg hps]
    push_neg at hps
    obtain ⟨hpre, hsuf⟩ := hps
    rw [hpre, hsuf, string_append_empty_both]
    rfl

/-- Witness for claim C9 on a one-template profile with both decorations. -/
theorem base_generate_decorates_witness :
    generate_prompt 0 0 ⟨["hello"], []⟩ = some ("hello") ∧
    base_generate 0 0 ⟨["hello"], []⟩ ("P: ") (" S") =
      some ("P: " ++ "hello" ++ " S") :=
  ⟨by decide, base_generate_decorates 0 0 ⟨["hello"], []⟩ ("P: ") (" S") ("hello")
    (by decide)⟩

/-- Claim C10: the seed mixer change token ignores its third and fourth
seeds — any values give the same token — even though the mixed-seed output
itself does depend on the third seed (shown at seed_3 = 0 versus 1) and on
the fourth seed (shown at seed_4 = 0 versus 1). -/
theorem is_changed_ignores_seed3_seed4 :
    (∀ s1 s2 s3 s4 s3' s4' : Nat,
      seedMixerIsChanged s1 s2 s3 s4 = seedMixerIsChanged s1 s2 s3' s4') ∧
    mix_seeds 0 0 0 0 ≠ mix_seeds 0 0 1 0 ∧
    mix_seeds 0 0 0 0 ≠ mix_seeds 0 0 0 1 :=
  ⟨fun _ _ _ _ _ _ => rfl, by decide, by decide⟩

end Zero2JSON
